import Mathlib

/-!
Shallow embedding of the two CPU inference backends of this repository
(`src/api/src/inference/onnx_cpu.py` and `src/api/src/inference/cpu.py`).

Conventions of the embedding:
* Floating-point scalars (style values, speed, audio samples) are carried
  opaquely; no claim depends on float arithmetic, so they are modelled by
  `Int`.
* The external inference engine is opaque: a live session is modelled as a
  function from the named input-tensor dictionary to `Except String`, the
  error carrying the engine's exception message.
* Python exceptions become `Except String`; a `try/except` block that
  re-raises `RuntimeError(f"...: {e}")` becomes an `Except` match that
  prefixes the message.
* Stateful methods take the backend record and return the updated record
  together with the method's `Except` result; methods that never assign a
  field return the record unchanged.
-/

/-- Modelled from the spec: the lifecycle enumeration of `ModelState`
(imported from `.base`, which is not part of the two source files):
uninitialized, loaded, warmed_up, failed (spec section 3). -/
inductive ModelState where
  | uninitialized
  | loaded
  | warmed_up
  | failed
  deriving DecidableEq, Repr

/-- A numeric tensor as handed to the engine: 2-D int64 arrays
(`np.array([tokens], dtype=np.int64)`), 1-D float vectors
(`voice[len(tokens)].numpy()`, `np.full(1, speed)`), and 2-D float
matrices (`np.zeros((1, 256))`). Float entries are modelled by `Int`. -/
inductive Tensor where
  | i64 (data : List (List Int))
  | f32v (data : List Int)
  | f32m (data : List (List Int))
  deriving DecidableEq, Repr

/-- A live engine session: `session.run(None, feeds)` on the named input
dictionary, returning the output list or failing with a message. -/
def SessionFun : Type := List (String × Tensor) → Except String (List Tensor)

/-- Modelled from the spec: the configuration snapshot `ONNXConfig`
(imported from `..structures.model_schemas`, not part of the two source
files): the six fields of spec section 3. -/
structure ONNXConfig where
  optimization_level : String
  num_threads : Int
  inter_op_threads : Int
  execution_mode : String
  memory_pattern : Bool
  arena_extend_strategy : String
  deriving DecidableEq, Repr

/-- `onnxruntime.GraphOptimizationLevel` values used by the source. -/
inductive GraphOptimizationLevel where
  | ORT_ENABLE_ALL
  | ORT_ENABLE_BASIC
  | ORT_DISABLE_ALL
  deriving DecidableEq, Repr

/-- `onnxruntime.ExecutionMode` values used by the source. -/
inductive ExecutionMode where
  | ORT_PARALLEL
  | ORT_SEQUENTIAL
  deriving DecidableEq, Repr

/-- The fields of `onnxruntime.SessionOptions` the source assigns. -/
structure SessionOptions where
  graph_optimization_level : GraphOptimizationLevel
  intra_op_num_threads : Int
  inter_op_num_threads : Int
  execution_mode : ExecutionMode
  enable_mem_pattern : Bool
  deriving DecidableEq, Repr

/-- The provider-options dictionary built by `_create_provider_options`. -/
def ProviderOptions : Type := List (String × List (String × String))

/-- `ONNXCPUBackend` (file `onnx_cpu.py`): device tag, optional session,
lifecycle field and configuration snapshot. -/
structure ONNXCPUBackend where
  _session : Option SessionFun
  _state : ModelState
  _config : ONNXConfig
  _device : String

/-- `ONNXCPUBackend.__init__`: no session, device "cpu", configuration
snapshot taken from settings. Modelled from the spec: the base-class
constructor starts the lifecycle at uninitialized (spec section 3). -/
def ONNXCPUBackend.init (cfg : ONNXConfig) : ONNXCPUBackend :=
  { _session := none
    _state := ModelState.uninitialized
    _config := cfg
    _device := "cpu" }

/-- `ONNXCPUBackend.state` property: uninitialized whenever the session
handle is `None`, otherwise the internal lifecycle field. -/
def ONNXCPUBackend.state (b : ONNXCPUBackend) : ModelState :=
  match b._session with
  | none => ModelState.uninitialized
  | some _ => b._state

/-- Modelled from the spec: `BaseModelBackend.is_loaded` (the base class is
not part of the two source files); warmup "Requires state == loaded"
(spec section 4.3). -/
def ONNXCPUBackend.is_loaded (b : ONNXCPUBackend) : Bool :=
  match b.state with
  | ModelState.loaded => true
  | _ => false

/-- Modelled from the spec: `BaseModelBackend.is_ready` (the base class is
not part of the two source files); generation requires a usable session,
"state loaded or warmed_up" (spec sections 3 and 4.4). -/
def ONNXCPUBackend.is_ready (b : ONNXCPUBackend) : Bool :=
  match b.state with
  | ModelState.loaded => true
  | ModelState.warmed_up => true
  | _ => false

/-- `ONNXCPUBackend._create_session_options`: translate the configuration
snapshot into engine session options. -/
def ONNXCPUBackend.createSessionOptions (b : ONNXCPUBackend) : SessionOptions :=
  { graph_optimization_level :=
      if b._config.optimization_level = "all" then
        GraphOptimizationLevel.ORT_ENABLE_ALL
      else if b._config.optimization_level = "basic" then
        GraphOptimizationLevel.ORT_ENABLE_BASIC
      else
        GraphOptimizationLevel.ORT_DISABLE_ALL
    intra_op_num_threads := b._config.num_threads
    inter_op_num_threads := b._config.inter_op_threads
    execution_mode :=
      if b._config.execution_mode = "parallel" then
        ExecutionMode.ORT_PARALLEL
      else
        ExecutionMode.ORT_SEQUENTIAL
    enable_mem_pattern := b._config.memory_pattern }

/-- `ONNXCPUBackend._create_provider_options`: single-entry dictionary
keyed by the CPU provider name. -/
def ONNXCPUBackend.createProviderOptions (b : ONNXCPUBackend) : ProviderOptions :=
  [("CPUExecutionProvider",
    [("arena_extend_strategy", b._config.arena_extend_strategy),
     ("cpu_memory_arena_cfg", "cpu:0")])]

/-- `ONNXCPUBackend.load_model`. The external collaborators are passed as
functions: `resolve` is `paths.get_model_path` and `mkSession` is the
`InferenceSession` constructor; either may fail with an exception
message. On any failure the lifecycle field is set to failed, the session
field is left as it was (the assignment only happens when the constructor
returns), and the cause is re-raised wrapped in
`RuntimeError("Failed to load ONNX model: ...")`. -/
def ONNXCPUBackend.load_model
    (resolve : String → Except String String)
    (mkSession : String → SessionOptions → ProviderOptions → Except String SessionFun)
    (b : ONNXCPUBackend) (path : String) :
    ONNXCPUBackend × Except String Unit :=
  match resolve path with
  | Except.error e =>
      ({ b with _state := ModelState.failed },
       Except.error ("Failed to load ONNX model: " ++ e))
  | Except.ok model_path =>
      let options := b.createSessionOptions
      let provider_options := b.createProviderOptions
      match mkSession model_path options provider_options with
      | Except.error e =>
          ({ b with _state := ModelState.failed },
           Except.error ("Failed to load ONNX model: " ++ e))
      | Except.ok s =>
          ({ b with _session := some s, _state := ModelState.loaded },
           Except.ok ())

/-- The named input-tensor dictionary built by `generate`: the token
tensor is registered under the single name "tokens", the style vector is
the voice row, the speed tensor holds one scalar. -/
def generateFeeds (tokens : List Int) (styleRow : List Int) (speed : Int) :
    List (String × Tensor) :=
  [("tokens", Tensor.i64 [tokens]),
   ("style", Tensor.f32v styleRow),
   ("speed", Tensor.f32v [speed])]

/-- `ONNXCPUBackend.generate`: reject when not ready; otherwise build the
inputs (indexing the voice matrix at `len(tokens)`, which raises inside
the `try` when out of range), run the session once, and return
`result[0]`; any exception in the `try` block is re-raised wrapped in
`RuntimeError("Generation failed: ...")`. No field of the backend is ever
assigned, so the returned record is the input record. -/
def ONNXCPUBackend.generate (b : ONNXCPUBackend)
    (tokens : List Int) (voice : List (List Int)) (speed : Int) :
    ONNXCPUBackend × Except String Tensor :=
  if !b.is_ready then
    (b, Except.error "Model not ready for inference")
  else
    (b,
      match voice[tokens.length]? with
      | none => Except.error ("Generation failed: " ++ "index out of range")
      | some styleRow =>
        match b._session with
        | none =>
            Except.error ("Generation failed: " ++ "session is None")
        | some s =>
          match s (generateFeeds tokens styleRow speed) with
          | Except.error e => Except.error ("Generation failed: " ++ e)
          | Except.ok result =>
            match result.head? with
            | none => Except.error ("Generation failed: " ++ "index out of range")
            | some out => Except.ok out)

/-- How `generate` interprets one engine run: a failure is wrapped, an
output list yields `result[0]`, an empty output list is the in-`try`
index error. -/
def runWrap : Except String (List Tensor) → Except String Tensor
  | Except.error e => Except.error ("Generation failed: " ++ e)
  | Except.ok result =>
    match result.head? with
    | none => Except.error ("Generation failed: " ++ "index out of range")
    | some out => Except.ok out

/-- The fixed warmup feeds: tokens `[1, 2, 3]`, a zero-filled `(1, 256)`
style matrix, speed `1.0`. -/
def warmupFeeds : List (String × Tensor) :=
  [("tokens", Tensor.i64 [[1, 2, 3]]),
   ("style", Tensor.f32m [List.replicate 256 0]),
   ("speed", Tensor.f32v [1])]

/-- `ONNXCPUBackend.warmup`: reject when not loaded; otherwise run the
session once on the fixed dummy feeds; on success the lifecycle field
becomes warmed_up, on failure it becomes failed and the cause is
re-raised wrapped in `RuntimeError("Model warmup failed: ...")`. -/
def ONNXCPUBackend.warmup (b : ONNXCPUBackend) :
    ONNXCPUBackend × Except String Unit :=
  if !b.is_loaded then
    (b, Except.error "Cannot warmup - model not loaded")
  else
    match b._session with
    | none =>
        ({ b with _state := ModelState.failed },
         Except.error ("Model warmup failed: " ++ "session is None"))
    | some s =>
      match s warmupFeeds with
      | Except.error e =>
          ({ b with _state := ModelState.failed },
           Except.error ("Model warmup failed: " ++ e))
      | Except.ok _ =>
          ({ b with _state := ModelState.warmed_up }, Except.ok ())

/-- Modelled from the spec: `BaseModelBackend._cleanup_resources` (the base
class is not part of the two source files) releases cached device memory,
a harmless no-op on this CPU-only state (spec section 4.5). -/
def baseCleanupResources (b : ONNXCPUBackend) : ONNXCPUBackend := b

/-- `ONNXCPUBackend._cleanup_resources`: drop the session when one exists,
then the base-class cleanup. -/
def ONNXCPUBackend.cleanupResources (b : ONNXCPUBackend) : ONNXCPUBackend :=
  baseCleanupResources
    (if b._session.isSome then { b with _session := none } else b)

/-- Modelled from the spec: `BaseModelBackend.unload` (the base class is
not part of the two source files) releases the session through the
cleanup hook (spec section 4.5). -/
def ONNXCPUBackend.unload (b : ONNXCPUBackend) : ONNXCPUBackend :=
  b.cleanupResources

/-- `CPUBackend` (file `cpu.py`, the earlier variant): device tag,
optional session and configuration snapshot; this variant has no
lifecycle field and no `state` property. -/
structure CPUBackend where
  _session : Option SessionFun
  _config : ONNXConfig
  _device : String

/-- `CPUBackend.__init__`: no session, device "cpu", configuration
snapshot taken from settings. -/
def CPUBackend.init (cfg : ONNXConfig) : CPUBackend :=
  { _session := none
    _config := cfg
    _device := "cpu" }

/-- Modelled from the spec: `BaseModelBackend.is_loaded` for the earlier
variant (the base class is not part of the two source files); "some
variants relax this to session is non-null" (spec section 3), and this
variant records no lifecycle state at all. -/
def CPUBackend.is_loaded (b : CPUBackend) : Bool :=
  b._session.isSome

/-- `CPUBackend._create_session_options`: identical translation to the
one in `onnx_cpu.py`. -/
def CPUBackend.createSessionOptions (b : CPUBackend) : SessionOptions :=
  { graph_optimization_level :=
      if b._config.optimization_level = "all" then
        GraphOptimizationLevel.ORT_ENABLE_ALL
      else if b._config.optimization_level = "basic" then
        GraphOptimizationLevel.ORT_ENABLE_BASIC
      else
        GraphOptimizationLevel.ORT_DISABLE_ALL
    intra_op_num_threads := b._config.num_threads
    inter_op_num_threads := b._config.inter_op_threads
    execution_mode :=
      if b._config.execution_mode = "parallel" then
        ExecutionMode.ORT_PARALLEL
      else
        ExecutionMode.ORT_SEQUENTIAL
    enable_mem_pattern := b._config.memory_pattern }

/-- `CPUBackend._create_provider_options`: identical to the one in
`onnx_cpu.py`. -/
def CPUBackend.createProviderOptions (b : CPUBackend) : ProviderOptions :=
  [("CPUExecutionProvider",
    [("arena_extend_strategy", b._config.arena_extend_strategy),
     ("cpu_memory_arena_cfg", "cpu:0")])]

/-- `CPUBackend.load_model`: a direct `os.path.exists` check (passed as
the function `path_exists`) instead of the path-resolution collaborator;
the `RuntimeError("Model not found: ...")` raised inside the `try` is
caught by the same `except` and re-wrapped. No lifecycle field exists,
so failure changes nothing. -/
def CPUBackend.load_model
    (path_exists : String → Bool)
    (mkSession : String → SessionOptions → ProviderOptions → Except String SessionFun)
    (b : CPUBackend) (path : String) :
    CPUBackend × Except String Unit :=
  if !path_exists path then
    (b, Except.error ("Failed to load ONNX model: " ++ "Model not found: " ++ path))
  else
    let options := b.createSessionOptions
    let provider_options := b.createProviderOptions
    match mkSession path options provider_options with
    | Except.error e =>
        (b, Except.error ("Failed to load ONNX model: " ++ e))
    | Except.ok s =>
        ({ b with _session := some s }, Except.ok ())

/-- `CPUBackend.generate`: same body as the `onnx_cpu.py` variant but
guarded by `is_loaded` with message "Model not loaded". -/
def CPUBackend.generate (b : CPUBackend)
    (tokens : List Int) (voice : List (List Int)) (speed : Int) :
    CPUBackend × Except String Tensor :=
  if !b.is_loaded then
    (b, Except.error "Model not loaded")
  else
    (b,
      match voice[tokens.length]? with
      | none => Except.error ("Generation failed: " ++ "index out of range")
      | some styleRow =>
        match b._session with
        | none =>
            Except.error ("Generation failed: " ++ "session is None")
        | some s =>
          match s (generateFeeds tokens styleRow speed) with
          | Except.error e => Except.error ("Generation failed: " ++ e)
          | Except.ok result =>
            match result.head? with
            | none => Except.error ("Generation failed: " ++ "index out of range")
            | some out => Except.ok out)

/-! Concrete fixtures used by witnesses and counterexamples. -/

/-- A configuration requesting every optimization. -/
def cfgAll : ONNXConfig :=
  { optimization_level := "all"
    num_threads := 4
    inter_op_threads := 2
    execution_mode := "parallel"
    memory_pattern := true
    arena_extend_strategy := "kSameAsRequested" }

/-- A configuration requesting basic optimizations. -/
def cfgBasic : ONNXConfig := { cfgAll with optimization_level := "basic" }

/-- A configuration with an unknown optimization level. -/
def cfgOther : ONNXConfig := { cfgAll with optimization_level := "weird" }

/-- An engine session that succeeds on any feeds with a fixed audio
output. -/
def sessionOk : SessionFun := fun _ => Except.ok [Tensor.f32v [0]]

/-- An engine session that fails on any feeds. -/
def sessionErr : SessionFun := fun _ => Except.error "boom"

/-- An engine session returning exactly one output (an older exported
model that never predicted durations). -/
def sessionSingleOut : SessionFun := fun _ => Except.ok [Tensor.f32v [3, 4]]

/-- An engine session for a model graph whose only token input name is
"input_ids": it rejects any feeds that do not carry that name. -/
def sessionInputIdsOnly : SessionFun := fun feeds =>
  if feeds.any (fun p => p.1 == "input_ids") then Except.ok [Tensor.f32v [7]]
  else Except.error "invalid input name tokens"

/-- An ONNX backend that completed `load_model` with session `s`. -/
def readyBackend (s : SessionFun) : ONNXCPUBackend :=
  { _session := some s
    _state := ModelState.loaded
    _config := cfgAll
    _device := "cpu" }

/-- A CPU backend that completed `load_model` with session `s`. -/
def readyCPUBackend (s : SessionFun) : CPUBackend :=
  { _session := some s
    _config := cfgAll
    _device := "cpu" }

/-- A six-row voice matrix of known distinct content. -/
def voice6 : List (List Int) :=
  [[10, 11], [20, 21], [30, 31], [40, 41], [50, 51], [60, 61]]

/-- A path resolver that fails on every path (nonexistent artifact). -/
def resolveFail : String → Except String String :=
  fun p => Except.error ("File not found: " ++ p)

/-- An `InferenceSession` constructor that always succeeds. -/
def mkSessionOk : String → SessionOptions → ProviderOptions → Except String SessionFun :=
  fun _ _ _ => Except.ok sessionOk

/-- An ONNX backend whose internal lifecycle field says failed while no
session was ever assigned. -/
def noSessionFailed : ONNXCPUBackend :=
  { ONNXCPUBackend.init cfgAll with _state := ModelState.failed }

/-! Shared lemmas. -/

/-- When the backend is ready with session `s` and the voice row at index
`len(tokens)` exists, `generate` performs exactly one engine run on the
feeds and interprets it through `runWrap`. -/
theorem ONNXCPUBackend.generate_run (b : ONNXCPUBackend) (s : SessionFun)
    (tokens : List Int) (voice : List (List Int)) (speed : Int) (row : List Int)
    (hready : b.is_ready = true) (hs : b._session = some s)
    (hrow : voice[tokens.length]? = some row) :
    b.generate tokens voice speed = (b, runWrap (s (generateFeeds tokens row speed))) := by
  cases hres : s (generateFeeds tokens row speed) with
  | error e =>
      simp [ONNXCPUBackend.generate, hready, hrow, hs, hres, runWrap]
  | ok result =>
      simp [ONNXCPUBackend.generate, hready, hrow, hs, hres, runWrap]

/-- Same single-run shape for the earlier `CPUBackend` variant. -/
theorem CPUBackend.cpu_generate_run (b : CPUBackend) (s : SessionFun)
    (tokens : List Int) (voice : List (List Int)) (speed : Int) (row : List Int)
    (hs : b._session = some s)
    (hrow : voice[tokens.length]? = some row) :
    b.generate tokens voice speed = (b, runWrap (s (generateFeeds tokens row speed))) := by
  have hloaded : b.is_loaded = true := by
    simp [CPUBackend.is_loaded, hs]
  cases hres : s (generateFeeds tokens row speed) with
  | error e =>
      simp [CPUBackend.generate, hloaded, hrow, hs, hres, runWrap]
  | ok result =>
      simp [CPUBackend.generate, hloaded, hrow, hs, hres, runWrap]

/-! Claim theorems. -/

/-- C4: on every backend instance on which `load_model` has not completed
successfully (no live session), `generate` raises the explicit
not-ready / not-loaded error and performs no engine session run (there is
no session to run; the guard rejects before the `try` block), in both
backend variants. -/
theorem generate_requires_live_session
    (b : ONNXCPUBackend) (c : CPUBackend)
    (tokens : List Int) (voice : List (List Int)) (speed : Int)
    (hb : b._session = none) (hc : c._session = none) :
    b.generate tokens voice speed = (b, Except.error "Model not ready for inference") ∧
    c.generate tokens voice speed = (c, Except.error "Model not loaded") := by
  constructor
  · simp [ONNXCPUBackend.generate, ONNXCPUBackend.is_ready, ONNXCPUBackend.state, hb]
  · simp [CPUBackend.generate, CPUBackend.is_loaded, hc]

/-- C4 witness: freshly constructed backends have no session and reject
`generate` with the explicit errors. -/
theorem generate_requires_live_session_witness :
    (ONNXCPUBackend.init cfgAll)._session = none ∧
    (CPUBackend.init cfgAll)._session = none ∧
    ((ONNXCPUBackend.init cfgAll).generate [5, 9, 2] voice6 1
        = (ONNXCPUBackend.init cfgAll, Except.error "Model not ready for inference") ∧
     (CPUBackend.init cfgAll).generate [5, 9, 2] voice6 1
        = (CPUBackend.init cfgAll, Except.error "Model not loaded")) :=
  ⟨rfl, rfl,
   generate_requires_live_session (ONNXCPUBackend.init cfgAll) (CPUBackend.init cfgAll)
     [5, 9, 2] voice6 1 rfl rfl⟩

/-- C5: building session options maps optimization_level "all" to
ORT_ENABLE_ALL, "basic" to ORT_ENABLE_BASIC, and every other value to
ORT_DISABLE_ALL, in both backend variants; the translation is total, so
no error is raised for unknown values. -/
theorem session_options_optimization_mapping (b : ONNXCPUBackend) (c : CPUBackend) :
    (b._config.optimization_level = "all" →
      b.createSessionOptions.graph_optimization_level = GraphOptimizationLevel.ORT_ENABLE_ALL) ∧
    (b._config.optimization_level = "basic" →
      b.createSessionOptions.graph_optimization_level = GraphOptimizationLevel.ORT_ENABLE_BASIC) ∧
    (b._config.optimization_level ≠ "all" → b._config.optimization_level ≠ "basic" →
      b.createSessionOptions.graph_optimization_level = GraphOptimizationLevel.ORT_DISABLE_ALL) ∧
    (c._config.optimization_level = "all" →
      c.createSessionOptions.graph_optimization_level = GraphOptimizationLevel.ORT_ENABLE_ALL) ∧
    (c._config.optimization_level = "basic" →
      c.createSessionOptions.graph_optimization_level = GraphOptimizationLevel.ORT_ENABLE_BASIC) ∧
    (c._config.optimization_level ≠ "all" → c._config.optimization_level ≠ "basic" →
      c.createSessionOptions.graph_optimization_level = GraphOptimizationLevel.ORT_DISABLE_ALL) := by
  refine ⟨?_, ?_, ?_, ?_, ?_, ?_⟩
  · intro h
    simp [ONNXCPUBackend.createSessionOptions, h]
  · intro h
    simp [ONNXCPUBackend.createSessionOptions, h]
  · intro h1 h2
    simp [ONNXCPUBackend.createSessionOptions, h1, h2]
  · intro h
    simp [CPUBackend.createSessionOptions, h]
  · intro h
    simp [CPUBackend.createSessionOptions, h]
  · intro h1 h2
    simp [CPUBackend.createSessionOptions, h1, h2]

/-- C5 witness: the three-way mapping at the three concrete
configurations, for both variants. -/
theorem session_options_optimization_mapping_witness :
    (ONNXCPUBackend.init cfgAll).createSessionOptions.graph_optimization_level
        = GraphOptimizationLevel.ORT_ENABLE_ALL ∧
    (ONNXCPUBackend.init cfgBasic).createSessionOptions.graph_optimization_level
        = GraphOptimizationLevel.ORT_ENABLE_BASIC ∧
    (ONNXCPUBackend.init cfgOther).createSessionOptions.graph_optimization_level
        = GraphOptimizationLevel.ORT_DISABLE_ALL ∧
    (CPUBackend.init cfgOther).createSessionOptions.graph_optimization_level
        = GraphOptimizationLevel.ORT_DISABLE_ALL :=
  ⟨(session_options_optimization_mapping (ONNXCPUBackend.init cfgAll)
      (CPUBackend.init cfgAll)).1 rfl,
   (session_options_optimization_mapping (ONNXCPUBackend.init cfgBasic)
      (CPUBackend.init cfgBasic)).2.1 rfl,
   (session_options_optimization_mapping (ONNXCPUBackend.init cfgOther)
      (CPUBackend.init cfgOther)).2.2.1 (by decide) (by decide),
   (session_options_optimization_mapping (ONNXCPUBackend.init cfgOther)
      (CPUBackend.init cfgOther)).2.2.2.2.2 (by decide) (by decide)⟩

/-- C10: the observable `state` property returns uninitialized whenever
the session handle is null, regardless of the internal lifecycle field;
it can then never read loaded, warmed_up or failed. -/
theorem state_uninitialized_when_no_session (b : ONNXCPUBackend)
    (h : b._session = none) :
    b.state = ModelState.uninitialized ∧
    b.state ≠ ModelState.loaded ∧
    b.state ≠ ModelState.warmed_up ∧
    b.state ≠ ModelState.failed := by
  simp [ONNXCPUBackend.state, h]

/-- C10 witness: a backend whose internal field says failed but that never
received a session observes state uninitialized. -/
theorem state_uninitialized_when_no_session_witness :
    noSessionFailed._session = none ∧
    (noSessionFailed.state = ModelState.uninitialized ∧
     noSessionFailed.state ≠ ModelState.loaded ∧
     noSessionFailed.state ≠ ModelState.warmed_up ∧
     noSessionFailed.state ≠ ModelState.failed) :=
  ⟨rfl, state_uninitialized_when_no_session noSessionFailed rfl⟩

/-- C9: `unload` is idempotent: a no-op when no session exists, applying
it twice equals applying it once, it always leaves the session handle
null, and a subsequent `generate` fails with the not-loaded / not-ready
error. -/
theorem unload_idempotent (b : ONNXCPUBackend)
    (tokens : List Int) (voice : List (List Int)) (speed : Int) :
    (b._session = none → b.unload = b) ∧
    b.unload.unload = b.unload ∧
    b.unload._session = none ∧
    b.unload.generate tokens voice speed
      = (b.unload, Except.error "Model not ready for inference") := by
  have hnone : ∀ x : ONNXCPUBackend, x._session = none → x.unload = x := by
    intro x hx
    simp [ONNXCPUBackend.unload, ONNXCPUBackend.cleanupResources, baseCleanupResources, hx]
  have hsess : b.unload._session = none := by
    cases hb : b._session with
    | none =>
        simp [ONNXCPUBackend.unload, ONNXCPUBackend.cleanupResources, baseCleanupResources, hb]
    | some s =>
        simp [ONNXCPUBackend.unload, ONNXCPUBackend.cleanupResources, baseCleanupResources, hb]
  refine ⟨hnone b, hnone _ hsess, hsess, ?_⟩
  simp [ONNXCPUBackend.generate, ONNXCPUBackend.is_ready, ONNXCPUBackend.state, hsess]

/-- C9 witness: a fresh backend is untouched by `unload`; a loaded backend
unloaded once is a fixed point of `unload`, holds no session, and rejects
`generate`. -/
theorem unload_idempotent_witness :
    (ONNXCPUBackend.init cfgAll)._session = none ∧
    (ONNXCPUBackend.init cfgAll).unload = ONNXCPUBackend.init cfgAll ∧
    (readyBackend sessionOk).unload.unload = (readyBackend sessionOk).unload ∧
    (readyBackend sessionOk).unload._session = none ∧
    (readyBackend sessionOk).unload.generate [5, 9, 2] voice6 1
      = ((readyBackend sessionOk).unload, Except.error "Model not ready for inference") :=
  ⟨rfl,
   (unload_idempotent (ONNXCPUBackend.init cfgAll) [] [] 0).1 rfl,
   (unload_idempotent (readyBackend sessionOk) [5, 9, 2] voice6 1).2.1,
   (unload_idempotent (readyBackend sessionOk) [5, 9, 2] voice6 1).2.2.1,
   (unload_idempotent (readyBackend sessionOk) [5, 9, 2] voice6 1).2.2.2⟩

/-- C7: a `generate` call never changes the backend record (lifecycle
field and session are exactly as before the call, in both variants), and
a failing engine run is wrapped and re-raised as the generation error. -/
theorem generate_failure_preserves_state
    (b : ONNXCPUBackend) (c : CPUBackend) (s : SessionFun)
    (tokens : List Int) (voice : List (List Int)) (speed : Int) (row : List Int) (e : String) :
    (b.generate tokens voice speed).fst = b ∧
    (c.generate tokens voice speed).fst = c ∧
    (b.is_ready = true → b._session = some s → voice[tokens.length]? = some row →
      s (generateFeeds tokens row speed) = Except.error e →
      (b.generate tokens voice speed).snd = Except.error ("Generation failed: " ++ e)) ∧
    (c._session = some s → voice[tokens.length]? = some row →
      s (generateFeeds tokens row speed) = Except.error e →
      (c.generate tokens voice speed).snd = Except.error ("Generation failed: " ++ e)) := by
  refine ⟨?_, ?_, ?_, ?_⟩
  · unfold ONNXCPUBackend.generate
    split
    · rfl
    · rfl
  · unfold CPUBackend.generate
    split
    · rfl
    · rfl
  · intro h1 h2 h3 h4
    rw [ONNXCPUBackend.generate_run b s tokens voice speed row h1 h2 h3]
    simp [runWrap, h4]
  · intro h1 h2 h3
    rw [CPUBackend.cpu_generate_run c s tokens voice speed row h1 h2]
    simp [runWrap, h3]

/-- C7 witness: a ready backend whose engine run fails keeps its exact
record and surfaces the wrapped generation error, in both variants. -/
theorem generate_failure_preserves_state_witness :
    ((readyBackend sessionErr).generate [5, 9, 2] voice6 1).fst = readyBackend sessionErr ∧
    ((readyCPUBackend sessionErr).generate [5, 9, 2] voice6 1).fst = readyCPUBackend sessionErr ∧
    ((readyBackend sessionErr).generate [5, 9, 2] voice6 1).snd
      = Except.error ("Generation failed: " ++ "boom") ∧
    ((readyCPUBackend sessionErr).generate [5, 9, 2] voice6 1).snd
      = Except.error ("Generation failed: " ++ "boom") :=
  ⟨(generate_failure_preserves_state (readyBackend sessionErr) (readyCPUBackend sessionErr)
      sessionErr [5, 9, 2] voice6 1 [40, 41] "boom").1,
   (generate_failure_preserves_state (readyBackend sessionErr) (readyCPUBackend sessionErr)
      sessionErr [5, 9, 2] voice6 1 [40, 41] "boom").2.1,
   (generate_failure_preserves_state (readyBackend sessionErr) (readyCPUBackend sessionErr)
      sessionErr [5, 9, 2] voice6 1 [40, 41] "boom").2.2.1 rfl rfl rfl rfl,
   (generate_failure_preserves_state (readyBackend sessionErr) (readyCPUBackend sessionErr)
      sessionErr [5, 9, 2] voice6 1 [40, 41] "boom").2.2.2 rfl rfl rfl⟩

/-- C8: `warmup` raises the not-loaded error when the observable state is
not loaded; on a loaded backend a successful warmup moves the state to
warmed_up, a failing warmup moves it to failed and raises the wrapped
warmup error. -/
theorem warmup_lifecycle (b : ONNXCPUBackend) (s : SessionFun)
    (outs : List Tensor) (e : String) :
    (b.state ≠ ModelState.loaded →
      b.warmup = (b, Except.error "Cannot warmup - model not loaded")) ∧
    (b._session = some s → b._state = ModelState.loaded →
      s warmupFeeds = Except.ok outs →
      b.warmup = ({ b with _state := ModelState.warmed_up }, Except.ok ()) ∧
      b.warmup.fst.state = ModelState.warmed_up) ∧
    (b._session = some s → b._state = ModelState.loaded →
      s warmupFeeds = Except.error e →
      b.warmup = ({ b with _state := ModelState.failed },
                  Except.error ("Model warmup failed: " ++ e)) ∧
      b.warmup.fst.state = ModelState.failed) := by
  refine ⟨?_, ?_, ?_⟩
  · intro h
    have hl : b.is_loaded = false := by
      unfold ONNXCPUBackend.is_loaded
      cases hst : b.state with
      | loaded => exact absurd hst h
      | uninitialized => rfl
      | warmed_up => rfl
      | failed => rfl
    simp [ONNXCPUBackend.warmup, hl]
  · intro hs hst hrun
    have hl : b.is_loaded = true := by
      simp [ONNXCPUBackend.is_loaded, ONNXCPUBackend.state, hs, hst]
    constructor
    · simp [ONNXCPUBackend.warmup, hl, hs, hrun]
    · simp [ONNXCPUBackend.warmup, hl, hs, hrun, ONNXCPUBackend.state]
  · intro hs hst hrun
    have hl : b.is_loaded = true := by
      simp [ONNXCPUBackend.is_loaded, ONNXCPUBackend.state, hs, hst]
    constructor
    · simp [ONNXCPUBackend.warmup, hl, hs, hrun]
    · simp [ONNXCPUBackend.warmup, hl, hs, hrun, ONNXCPUBackend.state]

/-- C8 witness: a never-loaded backend rejects warmup; a loaded backend
reaches warmed_up on a successful run and failed on a failing run. -/
theorem warmup_lifecycle_witness :
    noSessionFailed.state ≠ ModelState.loaded ∧
    noSessionFailed.warmup = (noSessionFailed, Except.error "Cannot warmup - model not loaded") ∧
    ((readyBackend sessionOk).warmup
        = ({ readyBackend sessionOk with _state := ModelState.warmed_up }, Except.ok ()) ∧
     (readyBackend sessionOk).warmup.fst.state = ModelState.warmed_up) ∧
    ((readyBackend sessionErr).warmup
        = ({ readyBackend sessionErr with _state := ModelState.failed },
           Except.error ("Model warmup failed: " ++ "boom")) ∧
     (readyBackend sessionErr).warmup.fst.state = ModelState.failed) :=
  ⟨by decide,
   (warmup_lifecycle noSessionFailed sessionOk [] "").1 (by decide),
   (warmup_lifecycle (readyBackend sessionOk) sessionOk [Tensor.f32v [0]] "").2.1 rfl rfl rfl,
   (warmup_lifecycle (readyBackend sessionErr) sessionErr [] "boom").2.2 rfl rfl rfl⟩

/-- C6: `generate` passes the tokens unframed (no sentinels are added to
the engine-visible token tensor) and the style vector handed to the
engine is exactly the row of the voice matrix at index `len(tokens)`, in
both variants. -/
theorem generate_style_row_index
    (b : ONNXCPUBackend) (c : CPUBackend) (s : SessionFun)
    (tokens : List Int) (voice : List (List Int)) (speed : Int) (row : List Int)
    (hrow : voice[tokens.length]? = some row) :
    (b.is_ready = true → b._session = some s →
      b.generate tokens voice speed =
        (b, runWrap (s [("tokens", Tensor.i64 [tokens]),
                        ("style", Tensor.f32v row),
                        ("speed", Tensor.f32v [speed])]))) ∧
    (c._session = some s →
      c.generate tokens voice speed =
        (c, runWrap (s [("tokens", Tensor.i64 [tokens]),
                        ("style", Tensor.f32v row),
                        ("speed", Tensor.f32v [speed])]))) := by
  constructor
  · intro h1 h2
    exact ONNXCPUBackend.generate_run b s tokens voice speed row h1 h2 hrow
  · intro h1
    exact CPUBackend.cpu_generate_run c s tokens voice speed row h1 hrow

/-- C6 witness: tokens of length 3 against the fabricated six-row voice
matrix read exactly row 3 = [40, 41]. -/
theorem generate_style_row_index_witness :
    voice6[([5, 9, 2] : List Int).length]? = some [40, 41] ∧
    (readyBackend sessionOk).generate [5, 9, 2] voice6 1 =
      (readyBackend sessionOk,
       runWrap (sessionOk [("tokens", Tensor.i64 [[5, 9, 2]]),
                           ("style", Tensor.f32v [40, 41]),
                           ("speed", Tensor.f32v [1])])) ∧
    (readyCPUBackend sessionOk).generate [5, 9, 2] voice6 1 =
      (readyCPUBackend sessionOk,
       runWrap (sessionOk [("tokens", Tensor.i64 [[5, 9, 2]]),
                           ("style", Tensor.f32v [40, 41]),
                           ("speed", Tensor.f32v [1])])) :=
  ⟨rfl,
   (generate_style_row_index (readyBackend sessionOk) (readyCPUBackend sessionOk) sessionOk
      [5, 9, 2] voice6 1 [40, 41] rfl).1 rfl rfl,
   (generate_style_row_index (readyBackend sessionOk) (readyCPUBackend sessionOk) sessionOk
      [5, 9, 2] voice6 1 [40, 41] rfl).2 rfl⟩

/-- C1 counterexample: for tokens = [5, 9, 2] against an engine session
that returns a single output, `generate` returns that audio tensor alone
(`result[0]`); it does not return a pair and in particular never produces
the all-ones durations sequence of length 5 the claim demands. -/
theorem generate_single_output_cex :
    ((readyBackend sessionSingleOut).generate [5, 9, 2] voice6 1).snd
        = Except.ok (Tensor.f32v [3, 4]) ∧
    ((readyBackend sessionSingleOut).generate [5, 9, 2] voice6 1).snd
        ≠ Except.ok (Tensor.f32v (List.replicate 5 1)) := by
  constructor
  · rfl
  · intro h
    have h2 : Except.ok (Tensor.f32v [3, 4])
        = Except.ok (Tensor.f32v (List.replicate 5 1)) := h
    injection h2 with h3
    injection h3 with h4
    exact absurd h4 (by decide)

/-- C1 (amended): when the engine session returns an output list `[a]`,
`generate` returns `a` — the single audio output — alone; no durations
sequence is synthesized, in either variant. -/
theorem generate_single_output_amended
    (b : ONNXCPUBackend) (c : CPUBackend) (s : SessionFun)
    (tokens : List Int) (voice : List (List Int)) (speed : Int) (row : List Int) (a : Tensor)
    (hrow : voice[tokens.length]? = some row)
    (hrun : s (generateFeeds tokens row speed) = Except.ok [a]) :
    (b.is_ready = true → b._session = some s →
      b.generate tokens voice speed = (b, Except.ok a)) ∧
    (c._session = some s →
      c.generate tokens voice speed = (c, Except.ok a)) := by
  constructor
  · intro h1 h2
    rw [ONNXCPUBackend.generate_run b s tokens voice speed row h1 h2 hrow, hrun]
    rfl
  · intro h1
    rw [CPUBackend.cpu_generate_run c s tokens voice speed row h1 hrow, hrun]
    rfl

/-- C1 (amended) witness: the single-output session yields exactly its
audio tensor from both variants. -/
theorem generate_single_output_amended_witness :
    (readyBackend sessionSingleOut).generate [5, 9, 2] voice6 1
        = (readyBackend sessionSingleOut, Except.ok (Tensor.f32v [3, 4])) ∧
    (readyCPUBackend sessionSingleOut).generate [5, 9, 2] voice6 1
        = (readyCPUBackend sessionSingleOut, Except.ok (Tensor.f32v [3, 4])) :=
  ⟨(generate_single_output_amended (readyBackend sessionSingleOut)
      (readyCPUBackend sessionSingleOut) sessionSingleOut
      [5, 9, 2] voice6 1 [40, 41] (Tensor.f32v [3, 4]) rfl rfl).1 rfl rfl,
   (generate_single_output_amended (readyBackend sessionSingleOut)
      (readyCPUBackend sessionSingleOut) sessionSingleOut
      [5, 9, 2] voice6 1 [40, 41] (Tensor.f32v [3, 4]) rfl rfl).2 rfl⟩

/-- C2 counterexample: against a model graph that accepts the call under
"input_ids" (third conjunct) but rejects the name "tokens", `generate`
fails with the wrapped engine error instead of succeeding after one
fallback attempt: no retry under the second name ever happens. -/
theorem generate_no_fallback_cex :
    ((readyBackend sessionInputIdsOnly).generate [1] voice6 1).snd
        = Except.error ("Generation failed: " ++ "invalid input name tokens") ∧
    ((readyBackend sessionInputIdsOnly).generate [1] voice6 1).snd
        ≠ Except.ok (Tensor.f32v [7]) ∧
    sessionInputIdsOnly [("input_ids", Tensor.i64 [[1]]),
                         ("style", Tensor.f32v [20, 21]),
                         ("speed", Tensor.f32v [1])] = Except.ok [Tensor.f32v [7]] := by
  refine ⟨rfl, ?_, rfl⟩
  intro h
  have h2 : (Except.error ("Generation failed: " ++ "invalid input name tokens") : Except String Tensor)
      = Except.ok (Tensor.f32v [7]) := h
  exact Except.noConfusion h2

/-- C2 (amended): the token tensor is submitted exactly once, under the
single name "tokens" (first conjunct exhibits the feeds); there is no
fallback to "input_ids", and every engine failure propagates immediately,
wrapped as the generation error, in both variants. -/
theorem generate_single_attempt_tokens_name
    (b : ONNXCPUBackend) (c : CPUBackend) (s : SessionFun)
    (tokens : List Int) (voice : List (List Int)) (speed : Int) (row : List Int) (e : String)
    (hrow : voice[tokens.length]? = some row)
    (hrun : s (generateFeeds tokens row speed) = Except.error e) :
    generateFeeds tokens row speed
      = [("tokens", Tensor.i64 [tokens]),
         ("style", Tensor.f32v row),
         ("speed", Tensor.f32v [speed])] ∧
    (b.is_ready = true → b._session = some s →
      b.generate tokens voice speed = (b, Except.error ("Generation failed: " ++ e))) ∧
    (c._session = some s →
      c.generate tokens voice speed = (c, Except.error ("Generation failed: " ++ e))) := by
  refine ⟨rfl, ?_, ?_⟩
  · intro h1 h2
    rw [ONNXCPUBackend.generate_run b s tokens voice speed row h1 h2 hrow, hrun]
    rfl
  · intro h1
    rw [CPUBackend.cpu_generate_run c s tokens voice speed row h1 hrow, hrun]
    rfl

/-- C2 (amended) witness: the input_ids-only graph makes both variants
fail with the wrapped engine error on their single "tokens" attempt. -/
theorem generate_single_attempt_tokens_name_witness :
    generateFeeds [1] [20, 21] 1
      = [("tokens", Tensor.i64 [[1]]),
         ("style", Tensor.f32v [20, 21]),
         ("speed", Tensor.f32v [1])] ∧
    (readyBackend sessionInputIdsOnly).generate [1] voice6 1
      = (readyBackend sessionInputIdsOnly,
         Except.error ("Generation failed: " ++ "invalid input name tokens")) ∧
    (readyCPUBackend sessionInputIdsOnly).generate [1] voice6 1
      = (readyCPUBackend sessionInputIdsOnly,
         Except.error ("Generation failed: " ++ "invalid input name tokens")) :=
  ⟨(generate_single_attempt_tokens_name (readyBackend sessionInputIdsOnly)
      (readyCPUBackend sessionInputIdsOnly) sessionInputIdsOnly
      [1] voice6 1 [20, 21] "invalid input name tokens" rfl rfl).1,
   (generate_single_attempt_tokens_name (readyBackend sessionInputIdsOnly)
      (readyCPUBackend sessionInputIdsOnly) sessionInputIdsOnly
      [1] voice6 1 [20, 21] "invalid input name tokens" rfl rfl).2.1 rfl rfl,
   (generate_single_attempt_tokens_name (readyBackend sessionInputIdsOnly)
      (readyCPUBackend sessionInputIdsOnly) sessionInputIdsOnly
      [1] voice6 1 [20, 21] "invalid input name tokens" rfl rfl).2.2 rfl⟩

/-- C3 counterexample: a freshly constructed backend whose path resolution
fails does raise the wrapped load error, but its observable `state`
property reads uninitialized — not failed — because no session handle was
ever assigned. -/
theorem load_model_observable_state_cex :
    ((ONNXCPUBackend.init cfgAll).load_model resolveFail mkSessionOk "missing.onnx").fst.state
        ≠ ModelState.failed ∧
    ((ONNXCPUBackend.init cfgAll).load_model resolveFail mkSessionOk "missing.onnx").fst.state
        = ModelState.uninitialized ∧
    ((ONNXCPUBackend.init cfgAll).load_model resolveFail mkSessionOk "missing.onnx").snd
        = Except.error ("Failed to load ONNX model: " ++ ("File not found: " ++ "missing.onnx")) := by
  refine ⟨by decide, rfl, rfl⟩

/-- C3 (amended): when path resolution fails, `load_model` raises the load
error wrapping the underlying cause, leaves the session field exactly as
it was (never a partially constructed session), and sets the internal
lifecycle field to failed; the observable `state` property is never
loaded, but it reads uninitialized — not failed — whenever no session
handle exists. -/
theorem load_model_failure_amended
    (resolve : String → Except String String)
    (mkSession : String → SessionOptions → ProviderOptions → Except String SessionFun)
    (b : ONNXCPUBackend) (path e : String)
    (hres : resolve path = Except.error e) :
    (b.load_model resolve mkSession path).snd
        = Except.error ("Failed to load ONNX model: " ++ e) ∧
    (b.load_model resolve mkSession path).fst._session = b._session ∧
    (b.load_model resolve mkSession path).fst._state = ModelState.failed ∧
    (b.load_model resolve mkSession path).fst.state ≠ ModelState.loaded ∧
    (b._session = none →
      (b.load_model resolve mkSession path).fst.state = ModelState.uninitialized) := by
  simp only [ONNXCPUBackend.load_model, hres]
  refine ⟨by trivial, by trivial, by trivial, ?_, ?_⟩
  · cases hb : b._session with
    | none => simp [ONNXCPUBackend.state, hb]
    | some s => simp [ONNXCPUBackend.state, hb]
  · intro hb
    simp [ONNXCPUBackend.state, hb]

/-- C3 (amended) witness: the failing fresh load at the concrete missing
path. -/
theorem load_model_failure_amended_witness :
    ((ONNXCPUBackend.init cfgAll).load_model resolveFail mkSessionOk "missing.onnx").snd
        = Except.error ("Failed to load ONNX model: " ++ ("File not found: " ++ "missing.onnx")) ∧
    ((ONNXCPUBackend.init cfgAll).load_model resolveFail mkSessionOk "missing.onnx").fst._session
        = (ONNXCPUBackend.init cfgAll)._session ∧
    ((ONNXCPUBackend.init cfgAll).load_model resolveFail mkSessionOk "missing.onnx").fst._state
        = ModelState.failed ∧
    ((ONNXCPUBackend.init cfgAll).load_model resolveFail mkSessionOk "missing.onnx").fst.state
        ≠ ModelState.loaded ∧
    ((ONNXCPUBackend.init cfgAll).load_model resolveFail mkSessionOk "missing.onnx").fst.state
        = ModelState.uninitialized :=
  ⟨(load_model_failure_amended resolveFail mkSessionOk (ONNXCPUBackend.init cfgAll)
      "missing.onnx" ("File not found: " ++ "missing.onnx") rfl).1,
   (load_model_failure_amended resolveFail mkSessionOk (ONNXCPUBackend.init cfgAll)
      "missing.onnx" ("File not found: " ++ "missing.onnx") rfl).2.1,
   (load_model_failure_amended resolveFail mkSessionOk (ONNXCPUBackend.init cfgAll)
      "missing.onnx" ("File not found: " ++ "missing.onnx") rfl).2.2.1,
   (load_model_failure_amended resolveFail mkSessionOk (ONNXCPUBackend.init cfgAll)
      "missing.onnx" ("File not found: " ++ "missing.onnx") rfl).2.2.2.1,
   (load_model_failure_amended resolveFail mkSessionOk (ONNXCPUBackend.init cfgAll)
      "missing.onnx" ("File not found: " ++ "missing.onnx") rfl).2.2.2.2 rfl⟩
